import Mathlib

set_option maxRecDepth 20000

/- Verification development for the Budget-Planner chatbot
   (src/ChatBot/chatbot.py, class SmartBudgetAIChatbot).

   The Python code is embedded shallowly:
   - Python regexes are modelled by a small backtracking engine (`mrun`) that
     mirrors CPython's `re` semantics on the concrete patterns used by the
     program: ordered alternation, greedy quantifiers with backtracking,
     leftmost `search`, and non-overlapping `finditer`.  All patterns in the
     source carry the `(?i)` flag, so literals are compared through
     `Char.toLower` (ASCII, which covers the program's inputs).
   - Python floats are modelled by exact rationals (`PyFloat`, a normalized
     numerator/denominator pair with fully computable arithmetic); the amounts
     handled by the claims are exactly representable either way.
   - Python dicts (`self.expenses`, insertion-ordered, assignment updates in
     place) are modelled by association lists with `dictInsert`.
   - `random.choice(lst)` is modelled by an explicit index `i`, reading
     `lst[i % len(lst)]`, so every concrete random draw is representable.
   - `datetime.now()` is modelled by a `Nat` timestamp in seconds;
     `timedelta.seconds` (the seconds component, not the total) is
     `(now - t) % 86400` for `t ≤ now`.
   - Code raising an uncaught exception (the `ZeroDivisionError` possible in
     the budget-analysis branch when income = 0) is modelled by `Option`,
     `none` meaning the exception escapes. -/

namespace BudgetPlanner

/-- Characters matched by Python's regex class `\s` (ASCII part). -/
def isPySpace (c : Char) : Bool :=
  c == ' ' || c == '\t' || c == '\n' || c == '\r' || c == '\x0b' || c == '\x0c'

/-- Case-insensitive test of one literal pattern character `c` (stored in
lower case) against an input character `d`, modelling a literal under `(?i)`. -/
def lowerEq (c : Char) (d : Char) : Bool := d.toLower == c

/-- Regular-expression syntax: empty, character class, concatenation, ordered
alternation, greedy star, and a numbered capturing group. -/
inductive RE where
  | eps : RE
  | cls : (Char → Bool) → RE
  | cat : RE → RE → RE
  | alt : RE → RE → RE
  | star : RE → RE
  | group : Nat → RE → RE

/-- Captured groups: group number paired with the captured characters. -/
abbrev Groups := List (Nat × List Char)

/-- Backtracking matcher in continuation-passing style.  `k` receives the
rest of the input and the groups captured so far; alternation tries its left
branch first, star is greedy and only iterates while it consumes input (as
CPython's engine does).  `fuel` decreases at every step so the recursion is
structural; all uses below supply more fuel than any run can consume, so the
`fuel = 0` branch is never reached. -/
def mrun {α : Type} : Nat → RE → List Char → Groups →
    (List Char → Groups → Option α) → Option α
  | 0, _, _, _, _ => none
  | fuel + 1, re, s, g, k =>
    match re with
    | .eps => k s g
    | .cls p =>
      match s with
      | [] => none
      | c :: cs => if p c then k cs g else none
    | .cat a b => mrun fuel a s g (fun s1 g1 => mrun fuel b s1 g1 k)
    | .alt a b =>
      match mrun fuel a s g k with
      | some r => some r
      | none => mrun fuel b s g k
    | .star r =>
      match mrun fuel r s g
          (fun s1 g1 => if s1.length < s.length then mrun fuel (.star r) s1 g1 k else none) with
      | some r2 => some r2
      | none => k s g
    | .group n r =>
      mrun fuel r s g (fun s1 g1 => k s1 ((n, s.take (s.length - s1.length)) :: g1))

/-- Model of `re.search`: try to match at each start position from the left; on success
return the captured groups and the input remaining after the match end. -/
def reSearch (r : RE) : List Char → Option (Groups × List Char)
  | [] => mrun 500 r [] [] (fun rest g => some (g, rest))
  | c :: cs =>
    match mrun ((c :: cs).length + 500) r (c :: cs) [] (fun rest g => some (g, rest)) with
    | some res => some res
    | none => reSearch r cs

/-- Anchored match at position 0 only, modelling a `^`-anchored `re.search`. -/
def reMatchStart (r : RE) (s : List Char) : Option Groups :=
  mrun (s.length + 500) r s [] (fun _ g => some g)

/-- Model of `re.finditer`: repeatedly search, continuing after each match end.  All
patterns used match at least one character, so the fuel bound is never hit. -/
def reFindIter : Nat → RE → List Char → List Groups
  | 0, _, _ => []
  | fuel + 1, r, s =>
    match reSearch r s with
    | none => []
    | some (g, rest) => g :: reFindIter fuel r rest

def reFindAll (r : RE) (s : List Char) : List Groups := reFindIter (s.length + 1) r s

/-- A case-insensitive literal string (the `(?i)` flag is set on every
pattern in the source). -/
def lit (s : String) : RE := s.data.foldr (fun c acc => RE.cat (RE.cls (lowerEq c)) acc) RE.eps

/-- Ordered alternation `a|b|c|...`, tried left to right as CPython does. -/
def alts : List RE → RE
  | [] => RE.eps
  | [r] => r
  | r :: rest => RE.alt r (alts rest)

/-- Concatenation of a sequence of regexes. -/
def catList : List RE → RE
  | [] => RE.eps
  | [r] => r
  | r :: rest => RE.cat r (catList rest)

/-- Greedy `r?`. -/
def opt (r : RE) : RE := RE.alt r RE.eps

/-- Greedy `r+`. -/
def rePlus (r : RE) : RE := RE.cat r (RE.star r)

def digitC : RE := RE.cls Char.isDigit
def alphaC : RE := RE.cls Char.isAlpha
def spaceC : RE := RE.cls isPySpace
def sp1 : RE := rePlus spaceC
def sp0 : RE := RE.star spaceC

/-- Group 1 of the numeric patterns: `(\d+(?:,\d+)*(?:\.\d+)?)`. -/
def amountGroup : RE :=
  RE.group 1 (catList [rePlus digitC,
    RE.star (catList [lit ",", rePlus digitC]),
    opt (catList [lit ".", rePlus digitC])])

/-- Pattern `(?:rs\.?|₹)?` — the optional currency marker. -/
def currencyOpt : RE := opt (RE.alt (catList [lit "rs", opt (lit ".")]) (lit "₹"))

/-- The spend-verb alternation of the expense pattern (chatbot.py line 327/393). -/
def spendVerbs : RE :=
  alts [lit "spend", lit "spent", lit "spending", lit "pay", lit "paying", lit "paid",
    lit "expense", lit "expenses", lit "cost", lit "costs"]

/-- Pattern `(?i)(?:spend|...|costs)\s+(?:rs\.?|₹)?\s*(\d+(?:,\d+)*(?:\.\d+)?)\s+(?:on|for|in)\s+([a-zA-Z\s]+)` -/
def expenseRE : RE :=
  catList [spendVerbs, sp1, currencyOpt, sp0, amountGroup, sp1,
    alts [lit "on", lit "for", lit "in"], sp1,
    RE.group 2 (rePlus (RE.cls (fun c => c.isAlpha || isPySpace c)))]

/-- Pattern `(?i)(?:income|earn|salary|make|making)(?:\s+is|\s+of)?\s+(?:rs\.?|₹)?\s*(\d+...)` -/
def incomeRE : RE :=
  catList [alts [lit "income", lit "earn", lit "salary", lit "make", lit "making"],
    opt (RE.alt (catList [sp1, lit "is"]) (catList [sp1, lit "of"])),
    sp1, currencyOpt, sp0, amountGroup]

/-- First savings pattern: `(?i)(?:save|saving|savings|goal)\s+(?:rs\.?|₹)?\s*(\d+...)` -/
def savingsRE1 : RE :=
  catList [alts [lit "save", lit "saving", lit "savings", lit "goal"],
    sp1, currencyOpt, sp0, amountGroup]

/-- Second savings pattern: `(?i)(?:want to|wanna|going to|plan to)\s+save\s+(?:rs\.?|₹)?\s*(\d+...)` -/
def savingsRE2 : RE :=
  catList [alts [lit "want to", lit "wanna", lit "going to", lit "plan to"],
    sp1, lit "save", sp1, currencyOpt, sp0, amountGroup]

/-- Name pattern 1: `(?i)(?:my name is|I am|I\x27m) ([A-Za-z]+)` -/
def nameRE1 : RE :=
  catList [alts [lit "my name is", lit "i am", lit "i\x27m"], lit " ", RE.group 1 (rePlus alphaC)]

/-- Name pattern 2: `(?i)(?:call me) ([A-Za-z]+)` -/
def nameRE2 : RE := catList [lit "call me", lit " ", RE.group 1 (rePlus alphaC)]

/-- Name pattern 3 (anchored): `(?i)^(?:I\x27m|I am) ([A-Za-z]+)` -/
def nameRE3 : RE :=
  catList [alts [lit "i\x27m", lit "i am"], lit " ", RE.group 1 (rePlus alphaC)]

/-- Rename pattern: `(?i)(?:call you|name you|rename you|your name is|you are|you\x27re) ([a-zA-Z]+)` -/
def renameRE : RE :=
  catList [alts [lit "call you", lit "name you", lit "rename you", lit "your name is",
    lit "you are", lit "you\x27re"], lit " ", RE.group 1 (rePlus alphaC)]

/-- The five identity-question patterns of generate_contextual_response. -/
def identityREs : List RE :=
  [catList [lit "what", RE.alt (lit "\x27s") (catList [sp1, lit "is"]), sp1, lit "your", sp1, lit "name"],
   catList [lit "who", sp1, lit "are", sp1, lit "you"],
   catList [lit "introduce", sp1, lit "yourself"],
   catList [lit "your", sp1, lit "name"],
   catList [lit "call", sp1, lit "you"]]

/-- Exact rational numbers with computable, kernel-reducible arithmetic,
modelling the Python float values handled by the chatbot (all of which come
from decimal strings; the claims' values are exact in both models).  Values
built by the operations below are always normalized (`den > 0`, reduced), so
structural equality is value equality. -/
structure PyFloat where
  num : Int
  den : Nat
  deriving DecidableEq

/-- Reduce a fraction to lowest terms. -/
def PyFloat.norm (x : PyFloat) : PyFloat :=
  let g := Nat.gcd x.num.natAbs x.den
  if g ≤ 1 then x else ⟨x.num / (g : Int), x.den / g⟩

def PyFloat.add (a b : PyFloat) : PyFloat :=
  PyFloat.norm ⟨a.num * (b.den : Int) + b.num * (a.den : Int), a.den * b.den⟩

def PyFloat.sub (a b : PyFloat) : PyFloat :=
  PyFloat.norm ⟨a.num * (b.den : Int) - b.num * (a.den : Int), a.den * b.den⟩

def PyFloat.mul (a b : PyFloat) : PyFloat := PyFloat.norm ⟨a.num * b.num, a.den * b.den⟩

/-- Exact division (division by zero is modelled separately where the Python
code can raise `ZeroDivisionError`; this total function is never applied to a
zero divisor below without that guard). -/
def PyFloat.div (a b : PyFloat) : PyFloat :=
  if b.num = 0 then ⟨0, 1⟩
  else if b.num < 0 then PyFloat.norm ⟨-(a.num * (b.den : Int)), a.den * b.num.natAbs⟩
  else PyFloat.norm ⟨a.num * (b.den : Int), a.den * b.num.natAbs⟩

/-- Strict `a < b` as a Boolean, mirroring a Python float comparison. -/
def PyFloat.ltb (a b : PyFloat) : Bool := a.num * (b.den : Int) < b.num * (a.den : Int)

instance (n : Nat) : OfNat PyFloat n := ⟨⟨n, 1⟩⟩

/-- Numeric value of a decimal digit character. -/
def digitVal (c : Char) : Nat := c.toNat - '0'.toNat

/-- Decimal digits to a natural number. -/
def digitsToNat (ds : List Char) : Nat := ds.foldl (fun n c => n * 10 + digitVal c) 0

/-- Model of `float(text.replace(",", ""))` on a string matched by the amount group:
strip thousands separators, then parse `int[.frac]`. -/
def parseAmount (cs : List Char) : PyFloat :=
  let cs2 := cs.filter (fun c => !(c == ','))
  let intPart := cs2.takeWhile (fun c => !(c == '.'))
  let rest := cs2.dropWhile (fun c => !(c == '.'))
  match rest with
  | [] => (⟨(digitsToNat intPart : Int), 1⟩ : PyFloat)
  | _ :: frac =>
    PyFloat.add ⟨(digitsToNat intPart : Int), 1⟩
      (PyFloat.div ⟨(digitsToNat frac : Int), 1⟩ ⟨((10 : Nat) ^ frac.length : Int), 1⟩)

def digitChar (n : Nat) : Char := Char.ofNat ('0'.toNat + n)

def natDigitsAux : Nat → Nat → List Char
  | 0, _ => []
  | fuel + 1, n => if n < 10 then [digitChar n] else natDigitsAux fuel (n / 10) ++ [digitChar (n % 10)]

/-- Decimal digits of a natural number, most significant first. -/
def natDigits (n : Nat) : List Char := natDigitsAux (n + 1) n

def chunk3 : List Char → List (List Char)
  | [] => []
  | [a] => [[a]]
  | [a, b] => [[a, b]]
  | a :: b :: c :: rest => [a, b, c] :: chunk3 rest

/-- Insert thousands separators into a digit string (Python's `,` format flag). -/
def withCommas (ds : List Char) : List Char :=
  List.intercalate [','] (((chunk3 ds.reverse).map List.reverse).reverse)

/-- Floor of an exact rational (denominator is positive on all values built
by the operations above). -/
def PyFloat.floorI (q : PyFloat) : Int := Int.ediv q.num (q.den : Int)

/-- Round to the nearest integer, ties to even — the rounding used by
Python's fixed-point float formatting. -/
def roundHalfEven (q : PyFloat) : Int :=
  let f := q.floorI
  let rN := q.num - f * (q.den : Int)
  if 2 * rN < (q.den : Int) then f
  else if (q.den : Int) < 2 * rN then f + 1
  else if f % 2 = 0 then f else f + 1

/-- Python's `"{:,.0f}".format(x)`: round to an integer, thousands separators. -/
def fmtComma0 (q : PyFloat) : String :=
  let n := roundHalfEven q
  (if n < 0 then "-" else "") ++ String.mk (withCommas (natDigits n.natAbs))

/-- Python's `"{:.1f}".format(x)`: one decimal digit, no separators. -/
def fmtDot1 (q : PyFloat) : String :=
  let n := roundHalfEven (PyFloat.mul q 10)
  let a := n.natAbs
  (if n < 0 then "-" else "") ++ String.mk (natDigits (a / 10)) ++ "." ++ String.mk [digitChar (a % 10)]

def lowerChars (s : List Char) : List Char := s.map Char.toLower

/-- Python `str.strip()` (whitespace on both ends). -/
def stripChars (s : List Char) : List Char :=
  ((s.dropWhile isPySpace).reverse.dropWhile isPySpace).reverse

/-- Python `str.capitalize()`: first character upper-cased, the rest lower-cased. -/
def capitalizeStr (s : List Char) : String :=
  match s with
  | [] => ""
  | c :: rest => String.mk (c.toUpper :: rest.map Char.toLower)

/-- Python's substring test `needle in hay`. -/
def containsSub (needle : List Char) : List Char → Bool
  | [] => needle.isEmpty
  | c :: t => needle.isPrefixOf (c :: t) || containsSub needle t

/-- Captured text of group `n` (empty if the group is absent, which does not
happen on the successful matches used below). -/
def groupGet (g : Groups) (n : Nat) : List Char :=
  ((g.find? (fun p => p.1 == n)).map Prod.snd).getD []

/-- A conversation turn role. -/
inductive Role where
  | user : Role
  | assistant : Role
  deriving DecidableEq

/-- One entry of `self.conversation_history`. -/
structure Turn where
  role : Role
  content : String
  deriving DecidableEq

/-- The `self.user_data` dict: the code only ever stores the keys
`"income"` and `"savings_goal"`, each holding a float. -/
@[ext] structure UserData where
  income : Option PyFloat
  savings_goal : Option PyFloat
  deriving DecidableEq

/-- The mutable state of a `SmartBudgetAIChatbot` instance (the fields read
or written by the embedded methods). -/
@[ext] structure BotState where
  user_data : UserData
  expenses : List (String × PyFloat)
  conversation_history : List Turn
  user_name : Option String
  last_greeting_time : Option Nat
  deriving DecidableEq

/-- The state right after `__init__`: everything empty. -/
def initialState : BotState :=
  { user_data := { income := none, savings_goal := none }
    expenses := []
    conversation_history := []
    user_name := none
    last_greeting_time := none }

/-- Python dict assignment `d[k] = v` on an insertion-ordered dict: update in
place if the key exists, else append. -/
def dictInsert (m : List (String × PyFloat)) (k : String) (v : PyFloat) :
    List (String × PyFloat) :=
  if m.any (fun p => p.1 == k) then m.map (fun p => if p.1 == k then (k, v) else p)
  else m ++ [(k, v)]

/-- Model of `sum(self.expenses.values())` (insertion order, as Python iterates). -/
def sumValues (m : List (String × PyFloat)) : PyFloat :=
  m.foldl (fun acc p => PyFloat.add acc p.2) 0

/-- Dict lookup `d[k]` / `d.get(k)`. -/
def lookupExp (m : List (String × PyFloat)) (k : String) : Option PyFloat :=
  (m.find? (fun p => p.1 == k)).map Prod.snd

/-- Model of `max(self.expenses.items(), key=lambda x: x[1])` on a non-empty dict:
the first item of maximal value in iteration order (Python's `max` keeps the
current item unless a strictly greater one appears). -/
def maxByValue : List (String × PyFloat) → Option (String × PyFloat)
  | [] => none
  | p :: rest => some (rest.foldl (fun best q => if PyFloat.ltb best.2 q.2 then q else best) p)

/-- Python truthiness `if self.user_name:` (false for `None` and `""`). -/
def nameTruthy : Option String → Bool
  | none => false
  | some s => !(s == "")

/-- The income rule of extract_financial_info (chatbot.py lines 383-390):
search the income pattern and parse group 1. -/
def incomeSearch (t : List Char) : Option PyFloat :=
  (reSearch incomeRE t).map (fun r => parseAmount (groupGet r.1 1))

/-- All expense matches, in textual order, parsed as the code does: amount
from group 1, category = `group(2).strip().lower()` (lines 393-401). -/
def expenseMatches (t : List Char) : List (String × PyFloat) :=
  (reFindAll expenseRE t).map
    (fun g => (String.mk (lowerChars (stripChars (groupGet g 2))), parseAmount (groupGet g 1)))

/-- First expense match only (`re.search` in generate_contextual_response,
lines 327-331): `(amount, category)`. -/
def expenseSearch (t : List Char) : Option (PyFloat × String) :=
  (reSearch expenseRE t).map
    (fun r => (parseAmount (groupGet r.1 1), String.mk (lowerChars (stripChars (groupGet r.1 2)))))

/-- The savings rule: the two patterns tried in order, first match wins
(identical pattern lists at lines 304-307 and 404-407). -/
def savingsSearch (t : List Char) : Option PyFloat :=
  match reSearch savingsRE1 t with
  | some r => some (parseAmount (groupGet r.1 1))
  | none =>
    match reSearch savingsRE2 t with
    | some r => some (parseAmount (groupGet r.1 1))
    | none => none

/-- The name rule (lines 421-431): three patterns in order, first match wins,
captured word capitalized. -/
def nameSearch (t : List Char) : Option String :=
  match reSearch nameRE1 t with
  | some r => some (capitalizeStr (groupGet r.1 1))
  | none =>
    match reSearch nameRE2 t with
    | some r => some (capitalizeStr (groupGet r.1 1))
    | none =>
      match reMatchStart nameRE3 t with
      | some g => some (capitalizeStr (groupGet g 1))
      | none => none

/-- The rename-attempt test of generate_contextual_response (lines 282-286):
the pattern matches and the captured word is not an accepted alias. -/
def renameHit (input : String) : Bool :=
  match reSearch renameRE input.data with
  | some r =>
    !((["ankit", "kumar", "chatbot", "bot", "assistant"] : List String).contains
      (String.mk (lowerChars (groupGet r.1 1))))
  | none => false

/-- The identity-question test (lines 289-299): any of the five patterns. -/
def identityHit (input : String) : Bool :=
  identityREs.any (fun r => (reSearch r input.data).isSome)

def analysisKeywords : List String :=
  ["analyze", "analysis", "how am i doing", "budget", "review", "overview", "summary", "status"]

/-- Model of `any(keyword in user_input.lower() for keyword in analysis_keywords)`. -/
def analysisHit (input : String) : Bool :=
  analysisKeywords.any (fun kw => containsSub kw.data (lowerChars input.data))

def greetingTokens : List String := ["hi", "hello", "hey", "hola", "greetings"]

/-- Model of `any(greeting in user_input.lower() for greeting in greetings)` in
handle_greeting (line 436): raw substring containment. -/
def greetingHit (input : String) : Bool :=
  greetingTokens.any (fun g => containsSub g.data (lowerChars input.data))

/-- Model of `random.choice(lst)` with an explicit draw `i`: reads `lst[i % len(lst)]`,
so every possible draw corresponds to some index. -/
def pick {α : Type} [Inhabited α] (l : List α) (i : Nat) : α := l.getD (i % l.length) default

/-- One explicit index per `random.choice` call site of the fallback
responder, standing for the random draws of one call. -/
structure Choices where
  savIdx : Nat
  incIdx : Nat
  expIdx : Nat
  anaIdx : Nat
  advIdx : Nat
  genIdx : Nat
  deriving DecidableEq

def defaultChoices : Choices := ⟨0, 0, 0, 0, 0, 0⟩

/-- The `savings_goal_added` templates, as functions of the formatted goal. -/
def savings_goal_added : List (String → String) :=
  [fun goal => "🎯 Excellent! Your savings goal is set to ₹" ++ goal ++ " per month.",
   fun goal => "I\x27ve set your monthly savings goal to ₹" ++ goal ++ ". Let\x27s work towards achieving it!"]

/-- The `income_added` templates. -/
def income_added : List (String → String) :=
  [fun income => "✅ Great! I\x27ve recorded your monthly income as ₹" ++ income ++ ".",
   fun income => "Thanks! I\x27ve noted your income as ₹" ++ income ++ " per month."]

/-- The `expense_added` templates (amount, category, total; the first
variant does not use the total, exactly as the source template). -/
def expense_added : List (String → String → String → String) :=
  [fun amount category _ => "📝 Got it! I\x27ve added ₹" ++ amount ++ " for " ++ category ++ " to your expenses.",
   fun amount category total => "Added: ₹" ++ amount ++ " for " ++ category ++ ". Your total expenses are now ₹" ++ total ++ "."]

/-- The `budget_analysis` templates (income, total, remaining, advice). -/
def budget_analysis : List (String → String → String → String → String) :=
  [fun income total remaining advice =>
    "📊 Based on your information:\n• Income: ₹" ++ income ++ "\n• Total Expenses: ₹" ++ total ++
      "\n• Remaining: ₹" ++ remaining ++ "\n\n" ++ advice,
   fun income total remaining advice =>
    "💰 Here\x27s your financial snapshot:\n• Monthly Income: ₹" ++ income ++
      "\n• Total Expenses: ₹" ++ total ++ "\n• Available for Savings: ₹" ++ remaining ++ "\n\n" ++ advice]

/-- The `general` templates. -/
def general : List String :=
  ["I\x27m here to help with your budget! You can tell me about your income, expenses, or savings goals.",
   "Need help with something specific? You can ask me about budget analysis, expense tracking, or savings advice.",
   "Feel free to share more details about your financial situation so I can provide better advice.",
   "Is there anything specific about your finances you\x27d like to discuss today?"]

/-- Named values bound into an advice template (`.format(...)` keyword
arguments; each template uses a subset, unused arguments are ignored). -/
structure AdviceParams where
  category : String
  amount : String
  percent : String
  recommended : String
  status : String
  goal : String
  savings_goal : String

instance : Inhabited AdviceParams := ⟨⟨"", "", "", "", "", "", ""⟩⟩

/-- The nine `advice_templates` (chatbot.py lines 55-65). -/
def advice_templates : List (AdviceParams → String) :=
  [fun p => "Based on your expenses, you might want to consider reducing your " ++ p.category ++
    " spending by " ++ p.percent ++ "% to save more money.",
   fun p => "I notice that you\x27re spending " ++ p.amount ++ " on " ++ p.category ++
    ". That\x27s about " ++ p.percent ++ "% of your income. The recommended percentage is around " ++
    p.recommended ++ "%.",
   fun p => "Looking at your financial data, I suggest focusing on saving more in the " ++ p.category ++
    " category. Try to aim for " ++ p.goal ++ " per month.",
   fun p => "Your " ++ p.category ++ " expenses seem " ++ p.status ++
    ". Most financial experts recommend keeping it under " ++ p.recommended ++ "% of your income.",
   fun p => "To reach your savings goal of " ++ p.savings_goal ++ ", consider cutting back on " ++
    p.category ++ " by about " ++ p.amount ++ " per month.",
   fun p => "Great job on managing your " ++ p.category ++
    "! You\x27re spending less than the recommended amount.",
   fun _ => "To improve your financial health, try the 50/30/20 rule: 50% for needs, 30% for wants, and 20% for savings.",
   fun _ => "Looking at your spending, I recommend creating an emergency fund of at least 3-6 months of expenses.",
   fun _ => "Consider automating your savings by setting up automatic transfers to your savings account each month."]

/-- The fixed rename-deflection reply (line 286). -/
def renameReply : String :=
  "I appreciate the nickname suggestion, but I prefer to go by Ankit Kumar 12312618 - that\x27s my name! 😊 I\x27m your Budgeting & Expense Estimation Planner here to help with your finances. What can I assist you with today?"

/-- The fixed self-introduction reply (line 299). -/
def identityReply : String :=
  "I\x27m Ankit Kumar 12312618 - your Budgeting & Expense Estimation Planner! 🤖 I\x27m here to help with your finances and travel planning. What can I help you with today?"

/-- The generic advice used when the ledger is empty (lines 361-363). -/
def genericAdvice : String :=
  "Consider tracking your expenses by category to get more specific advice."

/-- The four onboarding greetings of handle_greeting (lines 439-444). -/
def greeting_responses : List String :=
  ["👋 Hi there! I\x27m your AI financial buddy. Want to know what I can do? Just ask \x27what can you do?\x27 Or we can start budgeting - what\x27s your name?",
   "Hello! I\x27m here to help with your finances. Ask me \x27what can you do?\x27 to learn more, or we can get started - what\x27s your name?",
   "Hey! 😊 I\x27m your personal finance assistant. Want to see my capabilities? Ask \x27what can you do?\x27 Or let\x27s begin - what\x27s your name?",
   "Hi! Ready to manage your finances better? Ask me \x27what can you do?\x27 to learn more, or we can start right away - what\x27s your name?"]

/-- The within-cooldown filler reply (line 446). -/
def fillerReply : String := "I\x27m here to help! Just let me know what you need."

/-- generate_contextual_response (chatbot.py lines 278-379), the local
fallback responder.  Returns the reply and the updated state, or `none` when
the call raises (`ZeroDivisionError` in the analysis branch when income is
numerically zero — the `except` there catches only ValueError/TypeError). -/
def generate_contextual_response (input : String) (ch : Choices) (st : BotState) :
    Option (String × BotState) :=
  if renameHit input then some (renameReply, st)
  else if identityHit input then some (identityReply, st)
  else
    match savingsSearch input.data with
    | some goal =>
      some ((pick savings_goal_added ch.savIdx) (fmtComma0 goal),
        { st with user_data := { st.user_data with savings_goal := some goal } })
    | none =>
      if st.user_data.income.isSome && st.conversation_history.length < 3 then
        some ((pick income_added ch.incIdx) (fmtComma0 (st.user_data.income.getD 0)), st)
      else
        match expenseSearch input.data with
        | some am =>
          some ((pick expense_added ch.expIdx) (fmtComma0 am.1) am.2
            (fmtComma0 (sumValues st.expenses)), st)
        | none =>
          if analysisHit input && st.user_data.income.isSome then
            let income := st.user_data.income.getD 0
            let total := sumValues st.expenses
            let remaining := PyFloat.sub income total
            match maxByValue st.expenses with
            | none =>
              some ((pick budget_analysis ch.anaIdx) (fmtComma0 income) (fmtComma0 total)
                (fmtComma0 remaining) genericAdvice, st)
            | some highest =>
              if income.num = 0 then none
              else
                let percent := PyFloat.mul (PyFloat.div highest.2 income) 100
                let advice := (pick advice_templates ch.advIdx)
                  { category := highest.1
                    amount := fmtComma0 highest.2
                    percent := fmtDot1 percent
                    recommended := "15-20"
                    status := if PyFloat.ltb 30 percent then "high" else "reasonable"
                    goal := fmtComma0 (PyFloat.mul income ⟨1, 5⟩)
                    savings_goal := fmtComma0 (st.user_data.savings_goal.getD (PyFloat.mul income ⟨1, 5⟩)) }
                some ((pick budget_analysis ch.anaIdx) (fmtComma0 income) (fmtComma0 total)
                  (fmtComma0 remaining) advice, st)
          else
            if nameTruthy st.user_name then
              some ("Hi " ++ st.user_name.getD "" ++ "! " ++ pick general ch.genIdx, st)
            else some (pick general ch.genIdx, st)

/-- The four sequential rules of extract_financial_info, staged exactly as the
source statements (lines 381-431). -/
def applyIncomeRule (t : List Char) (st : BotState) : BotState :=
  match incomeSearch t with
  | some v => { st with user_data := { st.user_data with income := some v } }
  | none => st

def applyExpenseRule (t : List Char) (st : BotState) : BotState :=
  { st with expenses := (expenseMatches t).foldl (fun m p => dictInsert m p.1 p.2) st.expenses }

def applySavingsRule (t : List Char) (st : BotState) : BotState :=
  match savingsSearch t with
  | some v => { st with user_data := { st.user_data with savings_goal := some v } }
  | none => st

def applyNameRule (t : List Char) (st : BotState) : BotState :=
  if nameTruthy st.user_name then st
  else
    match nameSearch t with
    | some w => { st with user_name := some w }
    | none => st

/-- extract_financial_info: income, expenses, savings, then name. -/
def extract_financial_info (input : String) (st : BotState) : BotState :=
  applyNameRule input.data (applySavingsRule input.data
    (applyExpenseRule input.data (applyIncomeRule input.data st)))

/-- handle_greeting (lines 433-447).  `now` is the current time in seconds
(monotone, so `now` is at least any recorded `last_greeting_time`); Python's
`timedelta.seconds` is the seconds component of the elapsed time, i.e.
`(now - t) % 86400`, not the total number of elapsed seconds. -/
def handle_greeting (input : String) (now : Nat) (gi : Nat) (st : BotState) :
    Option String × BotState :=
  if greetingHit input then
    match st.last_greeting_time with
    | none => (some (pick greeting_responses gi), { st with last_greeting_time := some now })
    | some t =>
      if (now - t) % 86400 > 300 then
        (some (pick greeting_responses gi), { st with last_greeting_time := some now })
      else (some fillerReply, st)
  else (none, st)

/-- get_ai_response when the remote model is unavailable (the `else` branch,
lines 244-249): generate the contextual reply and append only the assistant
turn.  A raised exception (`none`) escapes with the state unchanged. -/
def get_ai_response_fallback (input : String) (ch : Choices) (st : BotState) :
    Option (String × BotState) :=
  match generate_contextual_response input ch st with
  | none => none
  | some r =>
    some (r.1, { r.2 with conversation_history :=
      r.2.conversation_history ++ [⟨Role.assistant, r.1⟩] })

/-- get_ai_response on the successful remote path (lines 197-236), with the
remote model's reply text supplied as `responseText`: append the user turn,
prune the history to the last 5 turns when its length exceeds 10, append the
assistant turn, then run extraction. -/
def get_ai_response_remote (input : String) (responseText : String) (st : BotState) :
    String × BotState :=
  let h1 := st.conversation_history ++ [⟨Role.user, input⟩]
  let h2 := if h1.length > 10 then h1.drop (h1.length - 5) else h1
  let h3 := h2 ++ [⟨Role.assistant, responseText⟩]
  (responseText, extract_financial_info input { st with conversation_history := h3 })

/-- Iterated fallback calls (the reachable behaviour of an instance whose
model failed to initialize, called repeatedly by the web layer). -/
def fallbackIter (input : String) (ch : Choices) : Nat → BotState → BotState
  | 0, st => st
  | n + 1, st =>
    match get_ai_response_fallback input ch st with
    | some r => fallbackIter input ch n r.2
    | none => st

/-- The amount written last for key `k` by a sequence of dict assignments. -/
def lastWrite (ms : List (String × PyFloat)) (k : String) : Option PyFloat :=
  (ms.reverse.find? (fun p => p.1 == k)).map Prod.snd

/-- The key list produced by a sequence of dict assignments starting from key
list `ks` (new keys are appended in first-occurrence order). -/
def keysAfter (ms : List (String × PyFloat)) (ks : List String) : List String :=
  ms.foldl (fun acc p => if acc.any (fun s => s == p.1) then acc else acc ++ [p.1]) ks

/-- The budget-analysis scenario of the spec: income 10000, ledger
rent ↦ 4000, food ↦ 1000, and enough prior turns that the recent-income
branch does not fire. -/
def analysisState : BotState :=
  { user_data := { income := some 10000, savings_goal := none }
    expenses := [("rent", 4000), ("food", 1000)]
    conversation_history := [⟨Role.user, "a"⟩, ⟨Role.assistant, "b"⟩, ⟨Role.user, "c"⟩]
    user_name := none
    last_greeting_time := none }

/-- Template draws for the budget-analysis scenario: outer template 0, the
advice variant that mentions amount, category, percent and recommended. -/
def analysisChoices : Choices := { defaultChoices with advIdx := 1 }

/-- A state with one previously recorded expense (food ↦ 100). -/
def expenseReplyState : BotState := { initialState with expenses := [("food", 100)] }

/-- Template draws selecting the expense variant that shows the total. -/
def expenseReplyChoices : Choices := { defaultChoices with expIdx := 1 }

/-- A state whose user name is already set. -/
def namedState : BotState := { initialState with user_name := some "Bob" }

/-- A state with a greeting recorded at time 0. -/
def greetedState : BotState := { initialState with last_greeting_time := some 0 }

/-- A state with two recorded expenses, for the overwrite example. -/
def overwriteState : BotState := { initialState with expenses := [("food", 100), ("rent", 50)] }

/-- The reply produced by the fallback path on the utterance `ok` from a
fresh state (the default general template), and the resulting pair. -/
def c1text : String := pick general 0

def c1resultPair : String × BotState :=
  (c1text, { initialState with conversation_history := [⟨Role.assistant, c1text⟩] })

/- Helper lemmas about the insertion-ordered dict model. -/

theorem beqStr_symm_false {a b : String} (h : (a == b) = false) : (b == a) = false := by
  simp only [beq_eq_false_iff_ne] at h ⊢
  exact fun e => h e.symm

theorem find_map_update (m : List (String × PyFloat)) (k : String) (v : PyFloat)
    (h : m.any (fun p => p.1 == k) = true) :
    (m.map (fun p => if p.1 == k then (k, v) else p)).find? (fun p => p.1 == k) = some (k, v) := by
  induction m with
  | nil => simp at h
  | cons p t ih =>
    rw [List.map_cons]
    by_cases hp : (p.1 == k) = true
    · rw [if_pos hp]
      simp only [List.find?_cons, beq_self_eq_true]
    · have hp' : (p.1 == k) = false := by simpa using hp
      rw [if_neg hp]
      simp only [List.find?_cons, hp']
      apply ih
      simp only [List.any_cons, hp', Bool.false_or] at h
      exact h

theorem find_map_update_other (m : List (String × PyFloat)) (k : String) (v : PyFloat)
    (q : String) (hq : (k == q) = false) :
    (m.map (fun p => if p.1 == k then (k, v) else p)).find? (fun p => p.1 == q) =
      m.find? (fun p => p.1 == q) := by
  induction m with
  | nil => rfl
  | cons p t ih =>
    rw [List.map_cons]
    by_cases hp : (p.1 == k) = true
    · have hpk : p.1 = k := eq_of_beq hp
      have hpq : (p.1 == q) = false := by rw [hpk]; exact hq
      rw [if_pos hp]
      simp only [List.find?_cons, hq, hpq]
      exact ih
    · rw [if_neg hp]
      by_cases hpq : (p.1 == q) = true
      · simp only [List.find?_cons, hpq]
      · have hpq' : (p.1 == q) = false := by simpa using hpq
        simp only [List.find?_cons, hpq']
        exact ih

theorem lookup_dictInsert_self (m : List (String × PyFloat)) (k : String) (v : PyFloat) :
    lookupExp (dictInsert m k v) k = some v := by
  unfold dictInsert lookupExp
  by_cases h : m.any (fun p => p.1 == k) = true
  · rw [if_pos h, find_map_update m k v h]
    rfl
  · rw [if_neg h]
    have hm : m.find? (fun p => p.1 == k) = none := by
      rw [List.find?_eq_none]
      intro x hx hbeq
      exact h (List.any_eq_true.mpr ⟨x, hx, hbeq⟩)
    rw [List.find?_append, hm]
    simp

theorem lookup_dictInsert_other (m : List (String × PyFloat)) (k : String) (v : PyFloat)
    (q : String) (hq : (q == k) = false) :
    lookupExp (dictInsert m k v) q = lookupExp m q := by
  have hkq : (k == q) = false := beqStr_symm_false hq
  unfold dictInsert lookupExp
  by_cases h : m.any (fun p => p.1 == k) = true
  · rw [if_pos h, find_map_update_other m k v q hkq]
  · rw [if_neg h, List.find?_append]
    cases hm : m.find? (fun p => p.1 == q) with
    | some r => simp [hm]
    | none => simp [hm, List.find?, hkq]

theorem lastWrite_cons (c : String × PyFloat) (tl : List (String × PyFloat)) (k : String) :
    lastWrite (c :: tl) k =
      match lastWrite tl k with
      | some v => some v
      | none => if (c.1 == k) = true then some c.2 else none := by
  unfold lastWrite
  rw [List.reverse_cons, List.find?_append]
  cases h : tl.reverse.find? (fun p => p.1 == k) with
  | some r => simp [h]
  | none =>
    by_cases hc : (c.1 == k) = true
    · simp [h, hc, List.find?]
    · simp [h, hc, List.find?]

theorem lookup_foldl_dictInsert (ms : List (String × PyFloat)) (m : List (String × PyFloat))
    (k : String) :
    lookupExp (ms.foldl (fun acc p => dictInsert acc p.1 p.2) m) k =
      match lastWrite ms k with
      | some v => some v
      | none => lookupExp m k := by
  induction ms generalizing m with
  | nil => simp [lastWrite]
  | cons c tl ih =>
    rw [List.foldl_cons, ih, lastWrite_cons]
    cases hw : lastWrite tl k with
    | some v => rfl
    | none =>
      by_cases hc : (c.1 == k) = true
      · have hck : c.1 = k := eq_of_beq hc
        simp only [hc, if_true]
        rw [← hck, lookup_dictInsert_self]
      · have hc' : (c.1 == k) = false := by simpa using hc
        simp only [hc', Bool.false_eq_true, if_false]
        rw [lookup_dictInsert_other m c.1 c.2 k (beqStr_symm_false hc')]

theorem any_keys (m : List (String × PyFloat)) (c : String) :
    m.any (fun p => p.1 == c) = (m.map Prod.fst).any (fun s => s == c) := by
  induction m with
  | nil => rfl
  | cons p t ih => simp only [List.any_cons, List.map_cons, ih]

theorem keys_dictInsert (m : List (String × PyFloat)) (k : String) (v : PyFloat) :
    (dictInsert m k v).map Prod.fst =
      if (m.map Prod.fst).any (fun s => s == k) then m.map Prod.fst
      else m.map Prod.fst ++ [k] := by
  unfold dictInsert
  rw [← any_keys]
  by_cases h : m.any (fun p => p.1 == k) = true
  · rw [if_pos h, if_pos h, List.map_map]
    apply List.map_congr_left
    intro p _
    by_cases hp : (p.1 == k) = true
    · rw [Function.comp_apply, if_pos hp]
      exact (eq_of_beq hp).symm
    · rw [Function.comp_apply, if_neg hp]
  · rw [if_neg h, if_neg h, List.map_append]
    rfl

theorem keys_foldl (ms : List (String × PyFloat)) (m : List (String × PyFloat)) :
    ((ms.foldl (fun acc p => dictInsert acc p.1 p.2) m).map Prod.fst) =
      keysAfter ms (m.map Prod.fst) := by
  induction ms generalizing m with
  | nil => rfl
  | cons c tl ih =>
    rw [List.foldl_cons, ih, keys_dictInsert]
    unfold keysAfter
    rw [List.foldl_cons]

theorem keysAfter_mono (ms : List (String × PyFloat)) (ks : List String) (q : String)
    (h : ks.any (fun s => s == q) = true) :
    (keysAfter ms ks).any (fun s => s == q) = true := by
  induction ms generalizing ks with
  | nil => exact h
  | cons c tl ih =>
    unfold keysAfter
    rw [List.foldl_cons]
    by_cases hc : ks.any (fun s => s == c.1) = true
    · rw [if_pos hc]
      exact ih ks h
    · rw [if_neg hc]
      apply ih
      rw [List.any_append, h, Bool.true_or]

theorem keysAfter_present (ms : List (String × PyFloat)) (ks : List String) :
    ∀ p ∈ ms, (keysAfter ms ks).any (fun s => s == p.1) = true := by
  induction ms generalizing ks with
  | nil => intro p hp; simp at hp
  | cons c tl ih =>
    intro p hp
    unfold keysAfter
    rw [List.foldl_cons]
    rcases List.mem_cons.mp hp with he | ht
    · subst he
      by_cases hc : ks.any (fun s => s == p.1) = true
      · rw [if_pos hc]
        exact keysAfter_mono tl ks p.1 hc
      · rw [if_neg hc]
        apply keysAfter_mono
        rw [List.any_append]
        simp
    · by_cases hc : ks.any (fun s => s == c.1) = true
      · rw [if_pos hc]
        exact ih ks p ht
      · rw [if_neg hc]
        exact ih (ks ++ [c.1]) p ht

theorem keysAfter_subset (ms : List (String × PyFloat)) (ks : List String)
    (h : ∀ p ∈ ms, ks.any (fun s => s == p.1) = true) : keysAfter ms ks = ks := by
  induction ms with
  | nil => rfl
  | cons c tl ih =>
    unfold keysAfter
    rw [List.foldl_cons, if_pos (h c (List.mem_cons_self c tl))]
    exact ih (fun p hp => h p (List.mem_cons_of_mem c hp))

theorem keysAfter_nodup (ms : List (String × PyFloat)) (ks : List String)
    (h : ks.Nodup) : (keysAfter ms ks).Nodup := by
  induction ms generalizing ks with
  | nil => exact h
  | cons c tl ih =>
    unfold keysAfter
    rw [List.foldl_cons]
    by_cases hc : ks.any (fun s => s == c.1) = true
    · rw [if_pos hc]
      exact ih ks h
    · rw [if_neg hc]
      apply ih
      rw [List.nodup_append]
      refine ⟨h, List.nodup_singleton c.1, ?_⟩
      intro x hx hx1
      rw [List.mem_singleton] at hx1
      subst hx1
      exact hc (List.any_eq_true.mpr ⟨c.1, hx, beq_self_eq_true c.1⟩)

theorem lookup_eq_none_of_not_mem (t : List (String × PyFloat)) (q : String)
    (h : ¬ q ∈ t.map Prod.fst) : lookupExp t q = none := by
  unfold lookupExp
  rw [List.find?_eq_none.mpr]
  · rfl
  · intro x hx hbeq
    exact h (List.mem_map.mpr ⟨x, hx, eq_of_beq hbeq⟩)

theorem eq_of_keys_lookup (m m' : List (String × PyFloat))
    (hk : m.map Prod.fst = m'.map Prod.fst)
    (hn : (m.map Prod.fst).Nodup)
    (hl : ∀ q, lookupExp m q = lookupExp m' q) : m = m' := by
  induction m generalizing m' with
  | nil =>
    cases m' with
    | nil => rfl
    | cons p t => simp at hk
  | cons p t ih =>
    cases m' with
    | nil => simp at hk
    | cons p' t' =>
      rw [List.map_cons, List.map_cons, List.cons_eq_cons] at hk
      obtain ⟨hk1, hk2⟩ := hk
      have hv : p.2 = p'.2 := by
        have hb : (p'.1 == p.1) = true := by rw [hk1]; exact beq_self_eq_true p'.1
        have h1 := hl p.1
        unfold lookupExp at h1
        simp only [List.find?_cons, beq_self_eq_true, hb] at h1
        simpa using h1
      rw [List.map_cons] at hn
      have hnt : (t.map Prod.fst).Nodup := (List.nodup_cons.mp hn).2
      have hp1 : p.1 ∉ t.map Prod.fst := (List.nodup_cons.mp hn).1
      have hp1' : p.1 ∉ t'.map Prod.fst := by rw [← hk2]; exact hp1
      have hlt : ∀ q, lookupExp t q = lookupExp t' q := by
        intro q
        by_cases hq : (p.1 == q) = true
        · have : p.1 = q := eq_of_beq hq
          subst this
          rw [lookup_eq_none_of_not_mem t p.1 hp1, lookup_eq_none_of_not_mem t' p.1 hp1']
        · have hq' : (p.1 == q) = false := by simpa using hq
          have h1 := hl q
          unfold lookupExp at h1
          have hq2 : (p'.1 == q) = false := by rw [← hk1]; exact hq'
          simp only [List.find?_cons, hq', hq2] at h1
          exact h1
      have ht : t = t' := ih t' hk2 hnt hlt
      calc p :: t = (p.1, p.2) :: t := by rw [Prod.mk.eta]
        _ = (p'.1, p'.2) :: t' := by rw [hk1, hv, ht]
        _ = p' :: t' := by rw [Prod.mk.eta]

theorem foldl_dictInsert_stable (ms : List (String × PyFloat)) (m : List (String × PyFloat))
    (hn : (m.map Prod.fst).Nodup) :
    ms.foldl (fun acc p => dictInsert acc p.1 p.2)
        (ms.foldl (fun acc p => dictInsert acc p.1 p.2) m) =
      ms.foldl (fun acc p => dictInsert acc p.1 p.2) m := by
  apply eq_of_keys_lookup
  · rw [keys_foldl, keys_foldl]
    exact keysAfter_subset ms _ (keysAfter_present ms (m.map Prod.fst))
  · rw [keys_foldl, keys_foldl]
    exact keysAfter_nodup ms _ (keysAfter_nodup ms (m.map Prod.fst) hn)
  · intro q
    rw [lookup_foldl_dictInsert, lookup_foldl_dictInsert]
    cases hw : lastWrite ms q with
    | none => rfl
    | some v => rfl

/- Projection lemmas for the four extraction stages. -/

theorem applyIncomeRule_income (t : List Char) (st : BotState) :
    (applyIncomeRule t st).user_data.income =
      (match incomeSearch t with | some v => some v | none => st.user_data.income) := by
  unfold applyIncomeRule
  cases incomeSearch t <;> rfl

theorem applyIncomeRule_savings (t : List Char) (st : BotState) :
    (applyIncomeRule t st).user_data.savings_goal = st.user_data.savings_goal := by
  unfold applyIncomeRule
  cases incomeSearch t <;> rfl

theorem applyIncomeRule_expenses (t : List Char) (st : BotState) :
    (applyIncomeRule t st).expenses = st.expenses := by
  unfold applyIncomeRule
  cases incomeSearch t <;> rfl

theorem applyIncomeRule_name (t : List Char) (st : BotState) :
    (applyIncomeRule t st).user_name = st.user_name := by
  unfold applyIncomeRule
  cases incomeSearch t <;> rfl

theorem applyIncomeRule_history (t : List Char) (st : BotState) :
    (applyIncomeRule t st).conversation_history = st.conversation_history := by
  unfold applyIncomeRule
  cases incomeSearch t <;> rfl

theorem applyIncomeRule_greeting (t : List Char) (st : BotState) :
    (applyIncomeRule t st).last_greeting_time = st.last_greeting_time := by
  unfold applyIncomeRule
  cases incomeSearch t <;> rfl

theorem applyExpenseRule_expenses (t : List Char) (st : BotState) :
    (applyExpenseRule t st).expenses =
      (expenseMatches t).foldl (fun acc p => dictInsert acc p.1 p.2) st.expenses := rfl

theorem applyExpenseRule_user_data (t : List Char) (st : BotState) :
    (applyExpenseRule t st).user_data = st.user_data := rfl

theorem applyExpenseRule_name (t : List Char) (st : BotState) :
    (applyExpenseRule t st).user_name = st.user_name := rfl

theorem applyExpenseRule_history (t : List Char) (st : BotState) :
    (applyExpenseRule t st).conversation_history = st.conversation_history := rfl

theorem applyExpenseRule_greeting (t : List Char) (st : BotState) :
    (applyExpenseRule t st).last_greeting_time = st.last_greeting_time := rfl

theorem applySavingsRule_savings (t : List Char) (st : BotState) :
    (applySavingsRule t st).user_data.savings_goal =
      (match savingsSearch t with | some v => some v | none => st.user_data.savings_goal) := by
  unfold applySavingsRule
  cases savingsSearch t <;> rfl

theorem applySavingsRule_income (t : List Char) (st : BotState) :
    (applySavingsRule t st).user_data.income = st.user_data.income := by
  unfold applySavingsRule
  cases savingsSearch t <;> rfl

theorem applySavingsRule_expenses (t : List Char) (st : BotState) :
    (applySavingsRule t st).expenses = st.expenses := by
  unfold applySavingsRule
  cases savingsSearch t <;> rfl

theorem applySavingsRule_name (t : List Char) (st : BotState) :
    (applySavingsRule t st).user_name = st.user_name := by
  unfold applySavingsRule
  cases savingsSearch t <;> rfl

theorem applySavingsRule_history (t : List Char) (st : BotState) :
    (applySavingsRule t st).conversation_history = st.conversation_history := by
  unfold applySavingsRule
  cases savingsSearch t <;> rfl

theorem applySavingsRule_greeting (t : List Char) (st : BotState) :
    (applySavingsRule t st).last_greeting_time = st.last_greeting_time := by
  unfold applySavingsRule
  cases savingsSearch t <;> rfl

theorem applyNameRule_name (t : List Char) (st : BotState) :
    (applyNameRule t st).user_name =
      (if nameTruthy st.user_name then st.user_name
       else match nameSearch t with | some w => some w | none => st.user_name) := by
  unfold applyNameRule
  by_cases h : nameTruthy st.user_name = true
  · rw [if_pos h, if_pos h]
  · rw [if_neg h, if_neg h]
    cases nameSearch t <;> rfl

theorem applyNameRule_user_data (t : List Char) (st : BotState) :
    (applyNameRule t st).user_data = st.user_data := by
  unfold applyNameRule
  by_cases h : nameTruthy st.user_name = true
  · rw [if_pos h]
  · rw [if_neg h]
    cases nameSearch t <;> rfl

theorem applyNameRule_expenses (t : List Char) (st : BotState) :
    (applyNameRule t st).expenses = st.expenses := by
  unfold applyNameRule
  by_cases h : nameTruthy st.user_name = true
  · rw [if_pos h]
  · rw [if_neg h]
    cases nameSearch t <;> rfl

theorem applyNameRule_history (t : List Char) (st : BotState) :
    (applyNameRule t st).conversation_history = st.conversation_history := by
  unfold applyNameRule
  by_cases h : nameTruthy st.user_name = true
  · rw [if_pos h]
  · rw [if_neg h]
    cases nameSearch t <;> rfl

theorem applyNameRule_greeting (t : List Char) (st : BotState) :
    (applyNameRule t st).last_greeting_time = st.last_greeting_time := by
  unfold applyNameRule
  by_cases h : nameTruthy st.user_name = true
  · rw [if_pos h]
  · rw [if_neg h]
    cases nameSearch t <;> rfl

/- Field views of extract_financial_info. -/

theorem extract_expenses (input : String) (st : BotState) :
    (extract_financial_info input st).expenses =
      (expenseMatches input.data).foldl (fun acc p => dictInsert acc p.1 p.2) st.expenses := by
  unfold extract_financial_info
  rw [applyNameRule_expenses, applySavingsRule_expenses, applyExpenseRule_expenses,
    applyIncomeRule_expenses]

theorem extract_income (input : String) (st : BotState) :
    (extract_financial_info input st).user_data.income =
      (match incomeSearch input.data with | some v => some v | none => st.user_data.income) := by
  unfold extract_financial_info
  rw [show (applyNameRule input.data (applySavingsRule input.data (applyExpenseRule input.data
      (applyIncomeRule input.data st)))).user_data.income =
    (applySavingsRule input.data (applyExpenseRule input.data
      (applyIncomeRule input.data st))).user_data.income from by rw [applyNameRule_user_data]]
  rw [applySavingsRule_income]
  rw [show (applyExpenseRule input.data (applyIncomeRule input.data st)).user_data.income =
    (applyIncomeRule input.data st).user_data.income from by rw [applyExpenseRule_user_data]]
  rw [applyIncomeRule_income]

theorem extract_savings (input : String) (st : BotState) :
    (extract_financial_info input st).user_data.savings_goal =
      (match savingsSearch input.data with
       | some v => some v
       | none => st.user_data.savings_goal) := by
  unfold extract_financial_info
  rw [show (applyNameRule input.data (applySavingsRule input.data (applyExpenseRule input.data
      (applyIncomeRule input.data st)))).user_data.savings_goal =
    (applySavingsRule input.data (applyExpenseRule input.data
      (applyIncomeRule input.data st))).user_data.savings_goal from by rw [applyNameRule_user_data]]
  rw [applySavingsRule_savings]
  rw [show (applyExpenseRule input.data (applyIncomeRule input.data st)).user_data.savings_goal =
    (applyIncomeRule input.data st).user_data.savings_goal from by rw [applyExpenseRule_user_data]]
  rw [applyIncomeRule_savings]

theorem extract_name (input : String) (st : BotState) :
    (extract_financial_info input st).user_name =
      (if nameTruthy st.user_name then st.user_name
       else match nameSearch input.data with | some w => some w | none => st.user_name) := by
  unfold extract_financial_info
  have hx : (applySavingsRule input.data (applyExpenseRule input.data
      (applyIncomeRule input.data st))).user_name = st.user_name := by
    rw [applySavingsRule_name, applyExpenseRule_name, applyIncomeRule_name]
  rw [applyNameRule_name, hx]

theorem extract_history (input : String) (st : BotState) :
    (extract_financial_info input st).conversation_history = st.conversation_history := by
  unfold extract_financial_info
  rw [applyNameRule_history, applySavingsRule_history, applyExpenseRule_history,
    applyIncomeRule_history]

theorem extract_greeting (input : String) (st : BotState) :
    (extract_financial_info input st).last_greeting_time = st.last_greeting_time := by
  unfold extract_financial_info
  rw [applyNameRule_greeting, applySavingsRule_greeting, applyExpenseRule_greeting,
    applyIncomeRule_greeting]

/-- The state effect of generate_contextual_response: it never touches the
expense ledger, income, user name, history or greeting time, and it writes
the savings goal exactly when the savings branch is reached. -/
theorem generate_effect (input : String) (ch : Choices) (st : BotState)
    (r : String × BotState) (h : generate_contextual_response input ch st = some r) :
    r.2.expenses = st.expenses ∧ r.2.user_data.income = st.user_data.income ∧
    r.2.user_name = st.user_name ∧ r.2.conversation_history = st.conversation_history ∧
    r.2.last_greeting_time = st.last_greeting_time ∧
    r.2.user_data.savings_goal =
      (if renameHit input = false ∧ identityHit input = false then
        match savingsSearch input.data with
        | some g => some g
        | none => st.user_data.savings_goal
       else st.user_data.savings_goal) := by
  unfold generate_contextual_response at h
  by_cases h1 : renameHit input = true
  · rw [if_pos h1, Option.some.injEq] at h
    subst h
    exact ⟨rfl, rfl, rfl, rfl, rfl, by simp [h1]⟩
  · have h1f : renameHit input = false := by simpa using h1
    rw [if_neg h1] at h
    by_cases h2 : identityHit input = true
    · rw [if_pos h2, Option.some.injEq] at h
      subst h
      exact ⟨rfl, rfl, rfl, rfl, rfl, by simp [h2]⟩
    · have h2f : identityHit input = false := by simpa using h2
      rw [if_neg h2] at h
      cases h3 : savingsSearch input.data with
      | some g =>
        rw [h3] at h
        rw [Option.some.injEq] at h
        subst h
        exact ⟨rfl, rfl, rfl, rfl, rfl, by simp [h1f, h2f, h3]⟩
      | none =>
        rw [h3] at h
        by_cases h4 : (st.user_data.income.isSome && decide (st.conversation_history.length < 3)) = true
        · rw [if_pos h4, Option.some.injEq] at h
          subst h
          exact ⟨rfl, rfl, rfl, rfl, rfl, by simp [h1f, h2f, h3]⟩
        · rw [if_neg h4] at h
          cases h5 : expenseSearch input.data with
          | some am =>
            rw [h5] at h
            rw [Option.some.injEq] at h
            subst h
            exact ⟨rfl, rfl, rfl, rfl, rfl, by simp [h1f, h2f, h3]⟩
          | none =>
            rw [h5] at h
            by_cases h6 : (analysisHit input && st.user_data.income.isSome) = true
            · rw [if_pos h6] at h
              cases h7 : maxByValue st.expenses with
              | none =>
                rw [h7] at h
                rw [Option.some.injEq] at h
                subst h
                exact ⟨rfl, rfl, rfl, rfl, rfl, by simp [h1f, h2f, h3]⟩
              | some highest =>
                rw [h7] at h
                dsimp only at h
                by_cases h8 : (st.user_data.income.getD 0).num = 0
                · rw [if_pos h8] at h
                  exact absurd h (by simp)
                · rw [if_neg h8, Option.some.injEq] at h
                  subst h
                  exact ⟨rfl, rfl, rfl, rfl, rfl, by simp [h1f, h2f, h3]⟩
            · rw [if_neg h6] at h
              by_cases h9 : nameTruthy st.user_name = true
              · rw [if_pos h9, Option.some.injEq] at h
                subst h
                exact ⟨rfl, rfl, rfl, rfl, rfl, by simp [h1f, h2f, h3]⟩
              · rw [if_neg h9, Option.some.injEq] at h
                subst h
                exact ⟨rfl, rfl, rfl, rfl, rfl, by simp [h1f, h2f, h3]⟩

/-- C2: extraction processes all non-overlapping expense matches (not just
the first); for each match it sets the ledger entry for the trimmed,
lower-cased category to exactly the parsed amount (separators stripped), and
a later statement of the same category overwrites rather than sums: after
extraction, the value at any key is the last amount written for that key in
the utterance, or the prior stored value when the utterance does not mention
it.  The closed conjuncts exhibit a two-match utterance recorded in full and
an overwrite (food: 100 restated as 300 stays 300, not 400). -/
theorem C2_expense_rule :
    (∀ (input : String) (st : BotState) (k : String),
      lookupExp (extract_financial_info input st).expenses k =
        (match lastWrite (expenseMatches input.data) k with
         | some v => some v
         | none => lookupExp st.expenses k)) ∧
    expenseMatches "spent 100 on food, paid 200 for rent".data = [("food", 100), ("rent", 200)] ∧
    (extract_financial_info "spent 100 on food, paid 200 for rent" initialState).expenses =
      [("food", 100), ("rent", 200)] ∧
    (extract_financial_info "I paid 300 for food" overwriteState).expenses =
      [("food", 300), ("rent", 50)] := by
  refine ⟨?_, by decide, by decide, by decide⟩
  intro input st k
  rw [extract_expenses]
  exact lookup_foldl_dictInsert _ _ _

/-- C4: the user name is set by the first successful name-pattern match (the
three patterns in their fixed order, captured word capitalized — that is
`nameSearch`) and once non-empty it is never overwritten: any extraction call
on a state whose name is a non-empty string leaves the name unchanged. -/
theorem C4_name_set_once :
    (∀ (input : String) (st : BotState) (s : String), st.user_name = some s → s ≠ "" →
      (extract_financial_info input st).user_name = st.user_name) ∧
    (∀ (input : String) (st : BotState), st.user_name = none →
      (extract_financial_info input st).user_name =
        (match nameSearch input.data with | some w => some w | none => none)) := by
  constructor
  · intro input st s hs hne
    rw [extract_name, hs]
    have ht : nameTruthy (some s) = true := by
      unfold nameTruthy
      simpa using hne
    rw [if_pos ht]
  · intro input st h0
    rw [extract_name, h0]
    rw [if_neg (by decide : ¬ (nameTruthy none = true))]

/-- Witness for C4: a set name `Bob` survives a later `call me alice`, while
from a fresh state the same utterance sets the name to `Alice`. -/
theorem C4_witness :
    (extract_financial_info "call me alice" namedState).user_name = some "Bob" ∧
    (extract_financial_info "call me alice" initialState).user_name = some "Alice" := by
  constructor
  · exact C4_name_set_once.1 "call me alice" namedState "Bob" rfl (by decide)
  · rw [C4_name_set_once.2 "call me alice" initialState rfl]
    decide

/-- C8: entity extraction is idempotent from a fresh session state — running
it twice on the same utterance gives exactly the state of running it once. -/
theorem C8_extract_idempotent (input : String) :
    extract_financial_info input (extract_financial_info input initialState) =
      extract_financial_info input initialState := by
  have hinner : (extract_financial_info input initialState).user_name =
      (match nameSearch input.data with | some w => some w | none => none) := by
    rw [extract_name]
    rw [if_neg (by decide : ¬ (nameTruthy initialState.user_name = true))]
    cases nameSearch input.data <;> rfl
  apply BotState.ext
  · apply UserData.ext
    · rw [extract_income, extract_income]
      cases incomeSearch input.data <;> rfl
    · rw [extract_savings, extract_savings]
      cases savingsSearch input.data <;> rfl
  · rw [extract_expenses, extract_expenses]
    exact foldl_dictInsert_stable _ _ (by simp [initialState])
  · rw [extract_history]
  · rw [extract_name]
    by_cases ht : nameTruthy ((extract_financial_info input initialState).user_name) = true
    · rw [if_pos ht]
    · rw [if_neg ht, hinner]
      cases nameSearch input.data <;> rfl
  · rw [extract_greeting]

/-- Counterexample to C1: on the local fallback path the utterance
`I spend 5000 on groceries` produces a reply, yet the ledger stays empty
(extraction did not run, although the utterance has an expense match) and the
history receives only an assistant turn (no user turn is recorded). -/
theorem C1_counterexample :
    ((get_ai_response_fallback "I spend 5000 on groceries" defaultChoices initialState).map
      (fun r => (r.2.expenses, r.2.conversation_history.map Turn.role))) =
      some ([], [Role.assistant]) ∧
    expenseMatches "I spend 5000 on groceries".data = [("groceries", 5000)] :=
  ⟨by decide, by decide⟩

/-- C1 (amended): on the local fallback path, get_ai_response classifies and
renders the reply and appends only an assistant turn carrying that reply; it
appends no user turn and runs no entity extraction, so ledger, income, name
and greeting time are exactly as before the call. -/
theorem C1_fallback_sequence :
    ∀ (input : String) (ch : Choices) (st : BotState) (r : String × BotState),
      get_ai_response_fallback input ch st = some r →
      r.2.conversation_history = st.conversation_history ++ [⟨Role.assistant, r.1⟩] ∧
      r.2.expenses = st.expenses ∧
      r.2.user_data.income = st.user_data.income ∧
      r.2.user_name = st.user_name ∧
      r.2.last_greeting_time = st.last_greeting_time ∧
      (generate_contextual_response input ch st).map Prod.fst = some r.1 := by
  intro input ch st r h
  unfold get_ai_response_fallback at h
  cases hg : generate_contextual_response input ch st with
  | none =>
    rw [hg] at h
    exact absurd h (by simp)
  | some p =>
    rw [hg, Option.some.injEq] at h
    subst h
    obtain ⟨he, hi, hn, hh, hl, _⟩ := generate_effect input ch st p hg
    refine ⟨?_, he, hi, hn, hl, rfl⟩
    show p.2.conversation_history ++ [⟨Role.assistant, p.1⟩] =
      st.conversation_history ++ [⟨Role.assistant, p.1⟩]
    rw [hh]

/-- Witness for C1 (amended): the fallback call on `ok` from a fresh state. -/
theorem C1_witness :
    c1resultPair.2.conversation_history =
      initialState.conversation_history ++ [⟨Role.assistant, c1resultPair.1⟩] ∧
    c1resultPair.2.expenses = initialState.expenses := by
  have h := C1_fallback_sequence "ok" defaultChoices initialState c1resultPair (by decide)
  exact ⟨h.1, h.2.1⟩

/-- Counterexample to C3: with a greeting recorded at time 0, a greeting
86400 seconds later — far more than 300 seconds — still gets the short
filler, and the timestamp is not reset, because the code compares the
seconds component of the timedelta (86400 seconds has component 0). -/
theorem C3_counterexample :
    handle_greeting "hi" 86400 0 greetedState = (some fillerReply, greetedState) ∧
    greetedState.last_greeting_time = some 0 ∧ 300 < 86400 - 0 :=
  ⟨by decide, rfl, by decide⟩

/-- C3 (amended): for a greeting-token utterance, when no greeting was ever
recorded the handler returns an onboarding greeting and sets the timestamp;
when one was recorded at `t ≤ now`, it returns an onboarding greeting and
resets the timestamp exactly when the seconds component of the elapsed time,
`(now - t) % 86400`, exceeds 300, and otherwise returns the filler and
leaves the state unchanged (so suppression recurs around each whole-day
mark, not only within the first 300 seconds). -/
theorem C3_greeting_cooldown :
    (∀ (input : String) (now gi : Nat) (st : BotState),
      greetingHit input = true → st.last_greeting_time = none →
      handle_greeting input now gi st =
        (some (pick greeting_responses gi), { st with last_greeting_time := some now })) ∧
    (∀ (input : String) (now gi : Nat) (st : BotState) (t : Nat),
      greetingHit input = true → st.last_greeting_time = some t → t ≤ now →
      handle_greeting input now gi st =
        (if (now - t) % 86400 > 300 then
          (some (pick greeting_responses gi), { st with last_greeting_time := some now })
         else (some fillerReply, st))) := by
  constructor
  · intro input now gi st hg h0
    unfold handle_greeting
    rw [if_pos hg, h0]
  · intro input now gi st t hg hl _
    unfold handle_greeting
    rw [if_pos hg, hl]

/-- Witness for C3 (amended): a second greeting 100 seconds later is
suppressed; a first greeting sets the timestamp. -/
theorem C3_witness :
    handle_greeting "hi" 100 0 greetedState = (some fillerReply, greetedState) ∧
    handle_greeting "hi" 5 0 initialState =
      (some (pick greeting_responses 0), { initialState with last_greeting_time := some 5 }) := by
  constructor
  · have h := C3_greeting_cooldown.2 "hi" 100 0 greetedState 0 (by decide) rfl (by decide)
    rw [h, if_neg (by decide)]
  · exact C3_greeting_cooldown.1 "hi" 5 0 initialState (by decide) rfl

/-- C5: in the budget-analysis scenario with income 10000 and ledger
rent ↦ 4000, food ↦ 1000, the remaining amount is 5000 = income minus the
ledger sum, the highest-amount category is rent, its share of income renders
as 40.0 percent, and the rendered reply carries exactly those values. -/
theorem C5_budget_analysis :
    sumValues analysisState.expenses = 5000 ∧
    PyFloat.sub 10000 (sumValues analysisState.expenses) = 5000 ∧
    maxByValue analysisState.expenses = some ("rent", 4000) ∧
    fmtDot1 (PyFloat.mul (PyFloat.div 4000 10000) 100) = "40.0" ∧
    generate_contextual_response "budget" analysisChoices analysisState =
      some ("📊 Based on your information:\n• Income: ₹10,000\n• Total Expenses: ₹5,000\n• Remaining: ₹5,000\n\nI notice that you\x27re spending 4,000 on rent. That\x27s about 40.0% of your income. The recommended percentage is around 15-20%.", analysisState) :=
  ⟨by decide, by decide, by decide, by decide, by decide⟩

/-- Counterexample to C6: twelve fallback calls from a fresh state leave
twelve turns in the history — the claimed bound of 11 fails on the fallback
path, which appends without ever pruning. -/
theorem C6_counterexample :
    (fallbackIter "ok" defaultChoices 12 initialState).conversation_history.length = 12 ∧
    11 < (fallbackIter "ok" defaultChoices 12 initialState).conversation_history.length :=
  ⟨by decide, by decide⟩

/-- C6 (amended): the prune-to-5-when-over-10 step exists only on the remote
path, where it keeps the history length at most 11; the local fallback path
appends one turn per call with no pruning, so no bound holds there. -/
theorem C6_history_bound :
    (∀ (st : BotState) (input resp : String), st.conversation_history.length ≤ 11 →
      (get_ai_response_remote input resp st).2.conversation_history.length ≤ 11) ∧
    (∀ (st : BotState) (input : String) (ch : Choices) (r : String × BotState),
      get_ai_response_fallback input ch st = some r →
      r.2.conversation_history.length = st.conversation_history.length + 1) := by
  constructor
  · intro st input resp hlen
    unfold get_ai_response_remote
    rw [extract_history]
    dsimp only
    by_cases hc : (st.conversation_history ++ [(⟨Role.user, input⟩ : Turn)]).length > 10
    · rw [if_pos hc]
      simp only [List.length_append, List.length_drop, List.length_singleton] at hc ⊢
      omega
    · rw [if_neg hc]
      simp only [List.length_append, List.length_singleton] at hc ⊢
      omega
  · intro st input ch r h
    unfold get_ai_response_fallback at h
    cases hg : generate_contextual_response input ch st with
    | none =>
      rw [hg] at h
      exact absurd h (by simp)
    | some p =>
      rw [hg, Option.some.injEq] at h
      subst h
      have hh := (generate_effect input ch st p hg).2.2.2.1
      show (p.2.conversation_history ++ [(⟨Role.assistant, p.1⟩ : Turn)]).length =
        st.conversation_history.length + 1
      rw [List.length_append, hh, List.length_singleton]

/-- Witness for C6 (amended): one remote call from a fresh state stays within
the bound; one fallback call adds exactly one turn. -/
theorem C6_witness :
    (get_ai_response_remote "x" "y" initialState).2.conversation_history.length ≤ 11 ∧
    c1resultPair.2.conversation_history.length = initialState.conversation_history.length + 1 := by
  constructor
  · exact C6_history_bound.1 initialState "x" "y" (by decide)
  · exact C6_history_bound.2 initialState "ok" defaultChoices c1resultPair (by decide)

/-- C7: the fallback policy checks savings before expenses (priority order
rename, identity, savings, recent income, expense, analysis, default): any
utterance that matches the savings pattern and the expense pattern — and no
higher-priority rename or identity pattern — is answered from the
savings-goal-recorded templates, with the goal recorded, not from the
expense-recorded templates. -/
theorem C7_savings_priority :
    ∀ (input : String) (ch : Choices) (st : BotState) (goal : PyFloat),
      renameHit input = false → identityHit input = false →
      savingsSearch input.data = some goal →
      expenseSearch input.data ≠ none →
      generate_contextual_response input ch st =
        some ((pick savings_goal_added ch.savIdx) (fmtComma0 goal),
          { st with user_data := { st.user_data with savings_goal := some goal } }) := by
  intro input ch st goal h1 h2 h3 _
  unfold generate_contextual_response
  rw [if_neg (by rw [h1]; exact Bool.false_ne_true),
    if_neg (by rw [h2]; exact Bool.false_ne_true), h3]

/-- Witness for C7: `i want to save 1000 and spent 200 on food` matches both
the savings and the expense pattern and is answered by the savings template. -/
theorem C7_witness :
    generate_contextual_response "i want to save 1000 and spent 200 on food" defaultChoices
        initialState =
      some ((pick savings_goal_added defaultChoices.savIdx) (fmtComma0 1000),
        { initialState with user_data :=
          { initialState.user_data with savings_goal := some 1000 } }) :=
  C7_savings_priority _ defaultChoices initialState 1000 (by decide) (by decide) (by decide)
    (by decide)

/-- C9: the fallback responder never modifies the expense ledger, income or
user name in any branch; it writes the user profile only in the savings-goal
branch (recording the parsed goal); consequently the total bound into an
expense-recorded reply is the sum of the ledger from before the utterance,
excluding the expense just stated — shown concretely: with food ↦ 100
recorded, `I spent 200 on rent` renders total 100, not 300. -/
theorem C9_responder_frame :
    (∀ (input : String) (ch : Choices) (st : BotState) (r : String × BotState),
      generate_contextual_response input ch st = some r →
      r.2.expenses = st.expenses ∧ r.2.user_data.income = st.user_data.income ∧
      r.2.user_name = st.user_name ∧
      r.2.user_data.savings_goal =
        (if renameHit input = false ∧ identityHit input = false then
          match savingsSearch input.data with
          | some g => some g
          | none => st.user_data.savings_goal
         else st.user_data.savings_goal)) ∧
    generate_contextual_response "I spent 200 on rent" expenseReplyChoices expenseReplyState =
      some ("Added: ₹200 for rent. Your total expenses are now ₹100.",
        expenseReplyState) := by
  refine ⟨?_, by decide⟩
  intro input ch st r h
  obtain ⟨he, hi, hn, _, _, hs⟩ := generate_effect input ch st r h
  exact ⟨he, hi, hn, hs⟩

/-- Witness for C9: the default branch on `ok` leaves the state untouched. -/
theorem C9_witness :
    (pick general 0, initialState).2.expenses = initialState.expenses ∧
    (pick general 0, initialState).2.user_name = initialState.user_name := by
  have h := C9_responder_frame.1 "ok" defaultChoices initialState (pick general 0, initialState)
    (by decide)
  exact ⟨h.1, h.2.2.1⟩

/-- C10: greeting detection is raw substring containment on the lower-cased
utterance: with a greeting token present anywhere — even inside longer words
like `this` or `okhey` — the handler replies (greeting or filler); with none
present it returns no reply and leaves the state, including the cooldown
timestamp, unchanged. -/
theorem C10_greeting_substring :
    (∀ (input : String) (now gi : Nat) (st : BotState), greetingHit input = false →
      handle_greeting input now gi st = (none, st)) ∧
    (∀ (input : String) (now gi : Nat) (st : BotState), greetingHit input = true →
      (handle_greeting input now gi st).1.isSome = true) ∧
    greetingHit "this" = true ∧ greetingHit "okhey" = true ∧ greetingHit "ok then" = false := by
  refine ⟨?_, ?_, by decide, by decide, by decide⟩
  · intro input now gi st h
    unfold handle_greeting
    rw [if_neg (by rw [h]; exact Bool.false_ne_true)]
  · intro input now gi st h
    unfold handle_greeting
    rw [if_pos h]
    cases st.last_greeting_time with
    | none => rfl
    | some t =>
      dsimp only
      by_cases hc : (now - t) % 86400 > 300
      · rw [if_pos hc]
        rfl
      · rw [if_neg hc]
        rfl

/-- Witness for C10: `this` (containing `hi`) gets a reply, `ok then` gets
none and an unchanged state. -/
theorem C10_witness :
    (handle_greeting "this" 0 0 initialState).1.isSome = true ∧
    handle_greeting "ok then" 0 0 initialState = (none, initialState) :=
  ⟨C10_greeting_substring.2.1 "this" 0 0 initialState (by decide),
    C10_greeting_substring.1 "ok then" 0 0 initialState (by decide)⟩

end BudgetPlanner
